import Mathlib

/-!
Shallow embedding of `src/mcp_sonarr/auth.py` (OAuth 2.0 authorization-code
flow, JWT token issuance/verification, and the authentication middleware),
together with proofs of the specification claims about it.

Modelling conventions:
* `datetime` values become `Nat` timestamps in whole seconds; the Python
  comparison `datetime.now(timezone.utc) > expires_at` becomes
  `expires_at < now`, and `timedelta(minutes=m)` becomes `m * 60` seconds.
* The module-level dict `_authorization_codes` becomes an explicit value of
  type `Store := String → Option CodeData`, threaded through the functions
  that read or mutate it.
* `secrets.token_urlsafe` results are passed in as explicit arguments.
* Bearer-token strings are modelled symbolically by `TokenStr`: an opaque
  string, or a JWT carrying its payload and the secret that signed it
  (`jose.jwt.encode` / `jose.jwt.decode` with HS256).
* Values read with `form.get(k)` / `query_params.get(k)` may be missing, so
  they are `Option String`; `secrets.compare_digest` raises `TypeError` on
  `None`, modelled with `Except Unit`.
-/

namespace McpSonarr

/-- A UTC timestamp in whole seconds. -/
abbrev Time := Nat

/-- One entry of the `_authorization_codes` dict. -/
structure CodeData where
  client_id : String
  redirect_uri : String
  expires_at : Time
  used : Bool
deriving Repr, DecidableEq

/-- The `_authorization_codes` dict: a map from code strings to entries. -/
def Store := String → Option CodeData

/-- Dict assignment `d[k] = v`. -/
def Store.set (st : Store) (k : String) (v : CodeData) : Store :=
  fun c => if c = k then some v else st c

/-- Dict deletion `del d[k]`. -/
def Store.del (st : Store) (k : String) : Store :=
  fun c => if c = k then none else st c

/-- The empty dict. -/
def emptyStore : Store := fun _ => none

/-- Python truthiness of an optional string: present and non-empty. -/
def truthy : Option String → Bool
  | none => false
  | some s => s ≠ ""

/-- `OAuthConfig`: the environment-derived configuration object. -/
structure OAuthConfig where
  client_id : Option String
  client_secret : Option String
  jwt_secret : String
  access_token_expire_minutes : Nat
  auth_password : Option String
  simple_auth_token : Option String
deriving Repr, DecidableEq

/-- `OAuthConfig.oauth_enabled`: `bool(client_id and client_secret and auth_password)`. -/
def OAuthConfig.oauth_enabled (cfg : OAuthConfig) : Bool :=
  truthy cfg.client_id && truthy cfg.client_secret && truthy cfg.auth_password

/-- `OAuthConfig.auth_enabled`: OAuth configured or a simple bearer token set. -/
def OAuthConfig.auth_enabled (cfg : OAuthConfig) : Bool :=
  cfg.oauth_enabled || truthy cfg.simple_auth_token

/-- `_cleanup_expired_codes`: drop every entry with `now > expires_at`. -/
def cleanup_expired_codes (now : Time) (st : Store) : Store :=
  fun c =>
    match st c with
    | some d => if d.expires_at < now then none else some d
    | none => none

/-- `generate_authorization_code`: record the freshly drawn random `code` with
a 10-minute expiry and `used = False`, then clean up expired entries.  The
random string from `secrets.token_urlsafe(32)` is the argument `code`. -/
def generate_authorization_code (now : Time) (code client_id redirect_uri : String)
    (st : Store) : Store :=
  cleanup_expired_codes now
    (st.set code
      { client_id := client_id, redirect_uri := redirect_uri,
        expires_at := now + 600, used := false })

/-- `validate_authorization_code`: returns the boolean result and the updated
dict.  The code/client/redirect arguments are optional because the token
endpoint forwards `form.get` results, which may be `None`; a `None` code is
never a dict key, and a `None` client or redirect never equals a stored
string. -/
def validate_authorization_code (now : Time)
    (code client_id redirect_uri : Option String) (st : Store) : Bool × Store :=
  match code with
  | none => (false, st)
  | some c =>
    match st c with
    | none => (false, st)
    | some d =>
      if d.expires_at < now then (false, st.del c)
      else if d.used then (false, st.del c)
      else if some d.client_id ≠ client_id then (false, st)
      else if some d.redirect_uri ≠ redirect_uri then (false, st)
      else (true, st.set c { d with used := true })

/-- JWT claims as built by `create_access_token`. -/
structure Claims where
  sub : String
  exp : Time
  iat : Time
  scope : String
  iss : String
deriving Repr, DecidableEq, BEq

/-- A bearer-token string: an opaque string, or a serialized JWT carrying its
payload and the secret it was signed with (the signature, symbolically). -/
inductive TokenStr where
  | plain (s : String)
  | signed (payload : Claims) (secret : String)
deriving Repr, DecidableEq, BEq

/-- `scopes or ["full"]`: Python falls back on `None` and on the empty list. -/
def scopesOrDefault : Option (List String) → List String
  | none => ["full"]
  | some [] => ["full"]
  | some l => l

/-- `create_access_token`: build the claims and sign them; returns the token
and `expires_in` in seconds. -/
def create_access_token (cfg : OAuthConfig) (now : Time) (client_id : String)
    (scopes : Option (List String)) : TokenStr × Nat :=
  let expiresDelta := cfg.access_token_expire_minutes * 60
  let payload : Claims :=
    { sub := client_id, exp := now + expiresDelta, iat := now,
      scope := String.intercalate " " (scopesOrDefault scopes), iss := "mcp-sonarr" }
  (TokenStr.signed payload cfg.jwt_secret, expiresDelta)

/-- `verify_access_token`: `jose.jwt.decode` succeeds when the signature used
the configured secret and the `exp` claim is not in the past (`exp < now`
raises `ExpiredSignatureError`); any failure yields `None`. -/
def verify_access_token (cfg : OAuthConfig) (now : Time) : TokenStr → Option Claims
  | TokenStr.plain _ => none
  | TokenStr.signed payload secret =>
    if secret = cfg.jwt_secret ∧ ¬ payload.exp < now then some payload else none

/-- `verify_password`: `False` when no password is configured (or it is the
empty string, which is falsy), otherwise a constant-time string comparison. -/
def verify_password (cfg : OAuthConfig) (password : String) : Bool :=
  match cfg.auth_password with
  | none => false
  | some ap => if ap = "" then false else password == ap

/-- `secrets.compare_digest` applied to possibly-missing form values: Python
raises `TypeError` when an argument is `None`; on two strings it is a
timing-safe equality test. -/
def compare_digest : Option String → Option String → Except Unit Bool
  | some a, some b => Except.ok (a == b)
  | _, _ => Except.error ()

/-- `verify_client_credentials`: short-circuit `and` of the two constant-time
comparisons, after the `oauth_enabled` guard. -/
def verify_client_credentials (cfg : OAuthConfig)
    (client_id client_secret : Option String) : Except Unit Bool :=
  if !cfg.oauth_enabled then Except.ok false
  else do
    let firstOk ← compare_digest client_id cfg.client_id
    if firstOk then compare_digest client_secret cfg.client_secret
    else pure false

/-- Uppercase hexadecimal digit, as `urllib.parse.quote` emits. -/
def hexDigit (n : Nat) : Char :=
  if n < 10 then Char.ofNat (48 + n) else Char.ofNat (55 + n)

/-- Bytes `urllib.parse.quote_plus` keeps verbatim (its `safe=''` default):
ASCII letters, digits, and `_ . - ~`. -/
def quoteSafe (b : UInt8) : Bool :=
  (65 ≤ b.toNat && b.toNat ≤ 90) || (97 ≤ b.toNat && b.toNat ≤ 122) ||
  (48 ≤ b.toNat && b.toNat ≤ 57) ||
  b.toNat = 95 || b.toNat = 46 || b.toNat = 45 || b.toNat = 126

/-- How `quote_plus` renders one byte of the UTF-8 encoding. -/
def quoteByte (b : UInt8) : String :=
  if quoteSafe b then String.singleton (Char.ofNat b.toNat)
  else if b.toNat = 32 then "+"
  else String.singleton '%' ++ String.singleton (hexDigit (b.toNat / 16))
       ++ String.singleton (hexDigit (b.toNat % 16))

/-- The UTF-8 encoding of a string as a byte list (the contents of
`String.toUTF8`). -/
def utf8Bytes (s : String) : List UInt8 :=
  s.data.flatMap String.utf8EncodeChar

/-- `urllib.parse.quote_plus` with default arguments, over the UTF-8 bytes. -/
def quote_plus (s : String) : String :=
  String.join ((utf8Bytes s).map quoteByte)

/-- `"&".join(parts)`. -/
def joinAmp : List String → String
  | [] => ""
  | [x] => x
  | x :: y :: xs => x ++ "&" ++ joinAmp (y :: xs)

/-- `urllib.parse.urlencode`: `k=v` pairs quoted with `quote_plus`, joined by
`&`, in insertion order. -/
def urlencode (params : List (String × String)) : String :=
  joinAmp (params.map fun p => quote_plus p.1 ++ "=" ++ quote_plus p.2)

/-- The observable responses of the `oauth_authorize` endpoint.  The HTML
rendering (template, `html.escape`) is abstracted: `htmlForm` carries the
status code and the raw values the template is formatted with. -/
inductive AuthorizeResponse where
  | jsonError (status : Nat) (error : String) (error_description : String)
  | htmlForm (status : Nat)
      (client_id redirect_uri state response_type error_html : String)
  | redirect (status : Nat) (location : String)
deriving Repr, DecidableEq

/-- The error banner inserted when the submitted password is wrong. -/
def invalidPasswordHtml : String :=
  "<div class=\"error\">Invalid password. Please try again.</div>"

/-- `oauth_authorize`, GET branch: query parameters are read with defaults
(`""`, and `"code"` for `response_type`). -/
def oauth_authorize_get (cfg : OAuthConfig)
    (qclient_id qredirect_uri qstate qresponse_type : Option String) :
    AuthorizeResponse :=
  if !cfg.oauth_enabled then
    AuthorizeResponse.jsonError 501 "oauth_not_configured"
      "OAuth is not configured on this server"
  else
    let client_id := qclient_id.getD ""
    let redirect_uri := qredirect_uri.getD ""
    let state := qstate.getD ""
    let response_type := qresponse_type.getD "code"
    if some client_id ≠ cfg.client_id then
      AuthorizeResponse.jsonError 400 "invalid_client" "Unknown client_id"
    else if response_type ≠ "code" then
      AuthorizeResponse.jsonError 400 "unsupported_response_type"
        "Only 'code' response type is supported"
    else
      AuthorizeResponse.htmlForm 200 client_id redirect_uri state response_type ""

/-- `oauth_authorize`, POST branch: form fields are read with default `""`;
`newCode` is the random string `secrets.token_urlsafe(32)` would draw. -/
def oauth_authorize_post (cfg : OAuthConfig) (now : Time) (newCode : String)
    (fclient_id fredirect_uri fstate fpassword : Option String) (st : Store) :
    AuthorizeResponse × Store :=
  if !cfg.oauth_enabled then
    (AuthorizeResponse.jsonError 501 "oauth_not_configured"
      "OAuth is not configured on this server", st)
  else
    let client_id := fclient_id.getD ""
    let redirect_uri := fredirect_uri.getD ""
    let state := fstate.getD ""
    let password := fpassword.getD ""
    if some client_id ≠ cfg.client_id then
      (AuthorizeResponse.jsonError 400 "invalid_client" "Unknown client_id", st)
    else if !verify_password cfg password then
      (AuthorizeResponse.htmlForm 401 client_id redirect_uri state "code"
        invalidPasswordHtml, st)
    else
      let st1 := generate_authorization_code now newCode client_id redirect_uri st
      let params :=
        if state ≠ "" then [("code", newCode), ("state", state)]
        else [("code", newCode)]
      (AuthorizeResponse.redirect 302 (redirect_uri ++ "?" ++ urlencode params), st1)

/-- The observable responses of the `oauth_token` endpoint. -/
inductive TokenResponse where
  | jsonError (status : Nat) (error : String) (error_description : String)
  | token (access_token : TokenStr) (token_type : String) (expires_in : Nat)
deriving Repr, DecidableEq

/-- `oauth_token`: exchange an authorization code for an access token.  An
uncaught `TypeError` from `compare_digest` (a `None` credential reaching it)
surfaces as `Except.error ()`, i.e. a server error rather than an OAuth
response. -/
def oauth_token (cfg : OAuthConfig) (now : Time)
    (grant_type code redirect_uri client_id client_secret : Option String)
    (st : Store) : Except Unit (TokenResponse × Store) :=
  if !cfg.oauth_enabled then
    Except.ok (TokenResponse.jsonError 501 "oauth_not_configured"
      "OAuth is not configured on this server", st)
  else if grant_type ≠ some "authorization_code" then
    Except.ok (TokenResponse.jsonError 400 "unsupported_grant_type"
      "Only 'authorization_code' grant type is supported", st)
  else do
    let credsOk ← verify_client_credentials cfg client_id client_secret
    if !credsOk then
      pure (TokenResponse.jsonError 401 "invalid_client"
        "Invalid client credentials", st)
    else
      let r := validate_authorization_code now code client_id redirect_uri st
      if !r.1 then
        pure (TokenResponse.jsonError 400 "invalid_grant"
          "Invalid or expired authorization code", r.2)
      else
        let t := create_access_token cfg now (client_id.getD "") none
        pure (TokenResponse.token t.1 "Bearer" t.2, r.2)

/-- `OAuthMiddleware.EXEMPT_PATHS`. -/
def EXEMPT_PATHS : List String :=
  ["/health", "/info", "/debug/series", "/oauth/authorize", "/oauth/token",
   "/.well-known/oauth-authorization-server"]

/-- Python `path.rstrip("/")`: remove every trailing slash. -/
def rstripSlashes (s : String) : String :=
  String.mk ((s.data.reverse.dropWhile (fun c => c = '/')).reverse)

/-- The request's `Authorization` header: absent, present but not of the form
`Bearer <token>`, or a bearer token. -/
inductive AuthHeader where
  | absent
  | nonBearer (value : String)
  | bearer (token : TokenStr)
deriving Repr, DecidableEq

/-- What the middleware stores in `request.state.auth_claims`: the synthetic
`{"sub": "bearer-token", "scope": "full"}` for the simple token, or the
verified JWT claims. -/
inductive AuthContext where
  | simpleToken
  | jwt (claims : Claims)
deriving Repr, DecidableEq

/-- The middleware's observable outcome: forward the request (with the
attached auth context, if any) or answer 401 without calling the handler. -/
inductive DispatchResult where
  | proceed (ctx : Option AuthContext)
  | reject (status : Nat) (error : String) (error_description : String)
      (www_authenticate : String)
deriving Repr, DecidableEq

/-- The backward-compatibility branch of the middleware: a truthy configured
simple token that the presented token equals (via `compare_digest`). -/
def matchesSimpleToken (cfg : OAuthConfig) (tok : TokenStr) : Bool :=
  match cfg.simple_auth_token with
  | some s => s ≠ "" && tok == TokenStr.plain s
  | none => false

/-- `OAuthMiddleware.dispatch`. -/
def OAuthMiddleware_dispatch (cfg : OAuthConfig) (path : String)
    (hdr : AuthHeader) (now : Time) : DispatchResult :=
  let p := rstripSlashes path
  if p ∈ EXEMPT_PATHS ∨ p = "" then DispatchResult.proceed none
  else if !cfg.auth_enabled then DispatchResult.proceed none
  else
    match hdr with
    | AuthHeader.absent =>
      DispatchResult.reject 401 "unauthorized"
        "Missing or invalid Authorization header" "Bearer realm=\"mcp-sonarr\""
    | AuthHeader.nonBearer _ =>
      DispatchResult.reject 401 "unauthorized"
        "Missing or invalid Authorization header" "Bearer realm=\"mcp-sonarr\""
    | AuthHeader.bearer tok =>
      if matchesSimpleToken cfg tok then
        DispatchResult.proceed (some AuthContext.simpleToken)
      else
        match verify_access_token cfg now tok with
        | some claims => DispatchResult.proceed (some (AuthContext.jwt claims))
        | none =>
          DispatchResult.reject 401 "invalid_token"
            "The access token is invalid or expired"
            "Bearer realm=\"mcp-sonarr\", error=\"invalid_token\""

/-- A code that is gone from the store, or stored with `used = true`, can
never redeem again. -/
def Consumed (st : Store) (code : String) : Prop :=
  st code = none ∨ ∃ d, st code = some d ∧ d.used = true

/-- Run a sequence of `validate_authorization_code` calls (each with its own
call time and arguments) for their state effect. -/
def runValidates
    (calls : List (Time × Option String × Option String × Option String))
    (st : Store) : Store :=
  calls.foldl
    (fun s c => (validate_authorization_code c.1 c.2.1 c.2.2.1 c.2.2.2 s).2) st

/-- Concrete configuration shared by the witnesses: OAuth client `abc` with
secret `s3cr3t`, password `hunter2`, a 60-minute token TTL and a static
fallback token `tok`. -/
def cfgA : OAuthConfig :=
  { client_id := some "abc", client_secret := some "s3cr3t", jwt_secret := "k",
    access_token_expire_minutes := 60, auth_password := some "hunter2",
    simple_auth_token := some "tok" }

/-- A two-entry store (one expired by t=100, one live) for the C8 witness. -/
def frameStore : Store :=
  (emptyStore.set "old" ⟨"a", "r", 5, false⟩).set "live" ⟨"b", "s", 9999, false⟩

/-! ### Basic store lemmas -/

theorem Store.set_self (st : Store) (k : String) (v : CodeData) :
    st.set k v k = some v := by
  simp [Store.set]

theorem Store.set_other (st : Store) (k c : String) (v : CodeData) (h : c ≠ k) :
    st.set k v c = st c := by
  simp [Store.set, h]

/-- The entry just written by `generate_authorization_code` survives the
opportunistic cleanup (its expiry is 600 seconds in the future). -/
theorem generate_self (now : Time) (code cid ruri : String) (st : Store) :
    generate_authorization_code now code cid ruri st code
      = some ⟨cid, ruri, now + 600, false⟩ := by
  have h : ¬ now + 600 < now := Nat.not_lt.mpr (Nat.le_add_right now 600)
  simp [generate_authorization_code, cleanup_expired_codes, Store.set, h]

/-- A live, unused, correctly bound code redeems successfully and is marked
used in place. -/
theorem validate_success (t : Time) (code : String) (d : CodeData) (st : Store)
    (hst : st code = some d) (hexp : ¬ d.expires_at < t) (hused : d.used = false) :
    validate_authorization_code t (some code) (some d.client_id)
        (some d.redirect_uri) st
      = (true, st.set code { d with used := true }) := by
  simp [validate_authorization_code, hst, hexp, hused]

theorem validate_false_of_consumed (t : Time) (code : String)
    (a b : Option String) (st : Store) (h : Consumed st code) :
    (validate_authorization_code t (some code) a b st).1 = false := by
  rcases h with h | ⟨d, hd, hu⟩
  · simp [validate_authorization_code, h]
  · by_cases hexp : d.expires_at < t
    · simp [validate_authorization_code, hd, hexp]
    · simp [validate_authorization_code, hd, hexp, hu]

theorem validate_preserves_consumed (t : Time) (c0 : String)
    (code a b : Option String) (st : Store) (h : Consumed st c0) :
    Consumed (validate_authorization_code t code a b st).2 c0 := by
  cases code with
  | none => simpa [validate_authorization_code] using h
  | some c =>
    have hdelC : Consumed (st.del c) c0 := by
      by_cases he : c0 = c
      · exact Or.inl (by simp [Store.del, he])
      · rcases h with h | ⟨e, he2, hu⟩
        · exact Or.inl (by simpa [Store.del, he] using h)
        · exact Or.inr ⟨e, by simpa [Store.del, he] using he2, hu⟩
    cases hc : st c with
    | none => simpa [validate_authorization_code, hc] using h
    | some d =>
      by_cases hexp : d.expires_at < t
      · simpa [validate_authorization_code, hc, hexp] using hdelC
      · by_cases hu : d.used = true
        · simpa [validate_authorization_code, hc, hexp, hu] using hdelC
        · by_cases hcid : some d.client_id = a
          · by_cases hruri : some d.redirect_uri = b
            · have hset : Consumed (st.set c { d with used := true }) c0 := by
                by_cases he : c0 = c
                · exact Or.inr ⟨{ d with used := true }, by simp [Store.set, he], rfl⟩
                · rcases h with h | ⟨e, he2, hu2⟩
                  · exact Or.inl (by simpa [Store.set, he] using h)
                  · exact Or.inr ⟨e, by simpa [Store.set, he] using he2, hu2⟩
              simpa [validate_authorization_code, hc, hexp, hu, hcid, hruri] using hset
            · simpa [validate_authorization_code, hc, hexp, hu, hcid, hruri] using h
          · simpa [validate_authorization_code, hc, hexp, hu, hcid] using h

theorem runValidates_preserves_consumed
    (calls : List (Time × Option String × Option String × Option String))
    (st : Store) (c0 : String) (h : Consumed st c0) :
    Consumed (runValidates calls st) c0 := by
  induction calls generalizing st with
  | nil => exact h
  | cons c cs ih =>
    simp only [runValidates, List.foldl] at *
    exact ih _ (validate_preserves_consumed _ _ _ _ _ _ h)

/-! ### Claim theorems: the authorization-code store -/

/-- C1: an authorization code just issued by `generate_authorization_code`
redeems successfully on the first `validate_authorization_code` call with the
matching client and redirect (within its validity window), and after that
success every later `validate_authorization_code` call naming the same code —
whatever its time, client or redirect arguments, and whatever other validate
calls happen in between — returns `false`: a code is never redeemed twice. -/
theorem authorization_code_single_use (st : Store) (t0 : Time)
    (code cid ruri : String) (t1 : Time) (h1 : ¬ t0 + 600 < t1) :
    (validate_authorization_code t1 (some code) (some cid) (some ruri)
        (generate_authorization_code t0 code cid ruri st)).1 = true ∧
    ∀ (calls : List (Time × Option String × Option String × Option String))
      (t2 : Time) (a b : Option String),
      (validate_authorization_code t2 (some code) a b
        (runValidates calls
          (validate_authorization_code t1 (some code) (some cid) (some ruri)
            (generate_authorization_code t0 code cid ruri st)).2)).1 = false := by
  have hself := generate_self t0 code cid ruri st
  have hsucc := validate_success t1 code ⟨cid, ruri, t0 + 600, false⟩
    (generate_authorization_code t0 code cid ruri st) hself h1 rfl
  constructor
  · rw [hsucc]
  · intro calls t2 a b
    apply validate_false_of_consumed
    apply runValidates_preserves_consumed
    rw [hsucc]
    exact Or.inr ⟨⟨cid, ruri, t0 + 600, true⟩, Store.set_self _ _ _, rfl⟩

theorem authorization_code_single_use_witness :
    (¬ (0 : Nat) + 600 < 5) ∧
    (validate_authorization_code 5 (some "c") (some "a") (some "r")
        (generate_authorization_code 0 "c" "a" "r" emptyStore)).1 = true ∧
    (validate_authorization_code 6 (some "c") (some "a") (some "r")
      (runValidates []
        (validate_authorization_code 5 (some "c") (some "a") (some "r")
          (generate_authorization_code 0 "c" "a" "r" emptyStore)).2)).1 = false := by
  have h := authorization_code_single_use emptyStore 0 "c" "a" "r" 5 (by decide)
  exact ⟨by decide, h.1, h.2 [] 6 (some "a") (some "r")⟩

/-- C2: a mismatched redemption attempt (wrong client or wrong redirect)
against a live, unused code returns `false` and leaves the store exactly as
it was — the entry is neither marked used nor deleted — so the correct pair
still redeems afterward (before expiry). -/
theorem authorization_code_binding (st : Store) (code cidA ruriA : String)
    (exp : Time) (hst : st code = some ⟨cidA, ruriA, exp, false⟩)
    (t1 : Time) (h1 : ¬ exp < t1) (cid ruri : String)
    (hmis : cid ≠ cidA ∨ ruri ≠ ruriA) (t2 : Time) (h2 : ¬ exp < t2) :
    validate_authorization_code t1 (some code) (some cid) (some ruri) st
      = (false, st) ∧
    (validate_authorization_code t2 (some code) (some cidA) (some ruriA)
      (validate_authorization_code t1 (some code) (some cid) (some ruri) st).2).1
      = true := by
  have hfail : validate_authorization_code t1 (some code) (some cid) (some ruri) st
      = (false, st) := by
    by_cases hc : cid = cidA
    · have hr : ruriA ≠ ruri := fun he => (hmis.resolve_left (by simp [hc])) he.symm
      subst hc
      simp [validate_authorization_code, hst, h1, hr]
    · have hc2 : cidA ≠ cid := Ne.symm hc
      simp [validate_authorization_code, hst, h1, hc2]
  refine ⟨hfail, ?_⟩
  rw [hfail]
  have := validate_success t2 code ⟨cidA, ruriA, exp, false⟩ st hst h2 rfl
  rw [this]

theorem authorization_code_binding_witness :
    ((emptyStore.set "c" ⟨"a", "https://cb-a", 600, false⟩) "c"
        = some ⟨"a", "https://cb-a", 600, false⟩) ∧
    (¬ (600 : Nat) < 5) ∧ ("b" ≠ "a" ∨ "https://cb-b" ≠ "https://cb-a") ∧
    (validate_authorization_code 5 (some "c") (some "b") (some "https://cb-b")
        (emptyStore.set "c" ⟨"a", "https://cb-a", 600, false⟩)
      = (false, emptyStore.set "c" ⟨"a", "https://cb-a", 600, false⟩) ∧
    (validate_authorization_code 6 (some "c") (some "a") (some "https://cb-a")
      (validate_authorization_code 5 (some "c") (some "b") (some "https://cb-b")
        (emptyStore.set "c" ⟨"a", "https://cb-a", 600, false⟩)).2).1 = true) := by
  refine ⟨by decide, by decide, by decide, ?_⟩
  exact authorization_code_binding _ "c" "a" "https://cb-a" 600 (by decide)
    5 (by decide) "b" "https://cb-b" (by decide) 6 (by decide)

/-- C3 counterexample: the claim says a code whose `expires_at` is not in the
future (`expires_at ≤ now`) is rejected, but at `now = expires_at` the code
still redeems: `validate_authorization_code` only rejects when
`now > expires_at` is strict. -/
theorem expiry_boundary_counterexample :
    (validate_authorization_code 100 (some "c") (some "a") (some "r")
      (emptyStore.set "c" ⟨"a", "r", 100, false⟩)).1 = true := by decide

/-- C3 amended: a stored code is rejected — on every attempt, even the first
with the correct client and redirect — whenever the call time is strictly
past `expires_at` (`expires_at < now`), and the entry is deleted; at
`now = expires_at` the code is not yet treated as expired. -/
theorem expired_code_rejected (st : Store) (code : String) (d : CodeData)
    (hst : st code = some d) (t : Time) (hexp : d.expires_at < t)
    (cid ruri : Option String) :
    validate_authorization_code t (some code) cid ruri st
      = (false, st.del code) := by
  simp [validate_authorization_code, hst, hexp]

theorem expired_code_rejected_witness :
    ((emptyStore.set "c" ⟨"a", "r", 100, false⟩) "c"
        = some ⟨"a", "r", 100, false⟩) ∧ ((100 : Nat) < 101) ∧
    validate_authorization_code 101 (some "c") (some "a") (some "r")
        (emptyStore.set "c" ⟨"a", "r", 100, false⟩)
      = (false, (emptyStore.set "c" ⟨"a", "r", 100, false⟩).del "c") := by
  refine ⟨by decide, by decide, ?_⟩
  exact expired_code_rejected _ "c" ⟨"a", "r", 100, false⟩ (by decide) 101
    (by decide) (some "a") (some "r")

/-- C8: after `generate_authorization_code`, the store holds the new code
with `used = false` and `expires_at = now + 600` seconds (10 minutes); every
other entry whose expiry has passed (`expires_at < now`) has been removed by
the opportunistic cleanup; and every other entry is untouched: non-expired
entries keep their exact data and absent keys stay absent. -/
theorem generate_code_frame (st : Store) (now : Time) (code cid ruri : String) :
    generate_authorization_code now code cid ruri st code
      = some ⟨cid, ruri, now + 600, false⟩ ∧
    (∀ c, c ≠ code → ∀ d, st c = some d → d.expires_at < now →
      generate_authorization_code now code cid ruri st c = none) ∧
    (∀ c, c ≠ code → ∀ d, st c = some d → ¬ d.expires_at < now →
      generate_authorization_code now code cid ruri st c = some d) ∧
    (∀ c, c ≠ code → st c = none →
      generate_authorization_code now code cid ruri st c = none) := by
  refine ⟨generate_self now code cid ruri st, ?_, ?_, ?_⟩
  · intro c hc d hd hexp
    simp [generate_authorization_code, cleanup_expired_codes, Store.set, hc, hd, hexp]
  · intro c hc d hd hexp
    simp [generate_authorization_code, cleanup_expired_codes, Store.set, hc, hd, hexp]
  · intro c hc hd
    simp [generate_authorization_code, cleanup_expired_codes, Store.set, hc, hd]

theorem generate_code_frame_witness :
    generate_authorization_code 100 "new" "cid" "cb" frameStore "new"
      = some ⟨"cid", "cb", 700, false⟩ ∧
    generate_authorization_code 100 "new" "cid" "cb" frameStore "old" = none ∧
    generate_authorization_code 100 "new" "cid" "cb" frameStore "live"
      = some ⟨"b", "s", 9999, false⟩ ∧
    generate_authorization_code 100 "new" "cid" "cb" frameStore "gone" = none := by
  have h := generate_code_frame frameStore 100 "new" "cid" "cb"
  exact ⟨h.1,
    h.2.1 "old" (by decide) ⟨"a", "r", 5, false⟩ (by decide) (by decide),
    h.2.2.1 "live" (by decide) ⟨"b", "s", 9999, false⟩ (by decide) (by decide),
    h.2.2.2 "gone" (by decide) (by decide)⟩

/-! ### Claim theorems: JWT access tokens -/

/-- C4: a token minted by `create_access_token` for a client id (default
scopes) comes with `expires_in` equal to the configured TTL in seconds, and
round-trips through `verify_access_token`: verified before the TTL elapses it
yields exactly the claims `sub = client_id`, `scope = "full"`,
`iss = "mcp-sonarr"` (with `iat` the mint time and `exp = iat + TTL`);
verified after the TTL has elapsed it yields `none`. -/
theorem token_round_trip (cfg : OAuthConfig) (client_id : String) (t0 : Time)
    (t1 : Time) (h1 : t1 < t0 + cfg.access_token_expire_minutes * 60)
    (t2 : Time) (h2 : t0 + cfg.access_token_expire_minutes * 60 < t2) :
    (create_access_token cfg t0 client_id none).2
        = cfg.access_token_expire_minutes * 60 ∧
    verify_access_token cfg t1 (create_access_token cfg t0 client_id none).1
      = some { sub := client_id, exp := t0 + cfg.access_token_expire_minutes * 60,
               iat := t0, scope := "full", iss := "mcp-sonarr" } ∧
    verify_access_token cfg t2 (create_access_token cfg t0 client_id none).1
      = none := by
  have hsc : String.intercalate " " ["full"] = "full" := rfl
  refine ⟨rfl, ?_, ?_⟩
  · have hlt : ¬ t0 + cfg.access_token_expire_minutes * 60 < t1 :=
      Nat.not_lt.mpr (Nat.le_of_lt h1)
    simp [create_access_token, verify_access_token, scopesOrDefault, hsc, hlt]
  · simp [create_access_token, verify_access_token, scopesOrDefault, hsc, h2]

theorem token_round_trip_witness :
    ((100 : Nat) < 0 + cfgA.access_token_expire_minutes * 60) ∧
    ((0 : Nat) + cfgA.access_token_expire_minutes * 60 < 4000) ∧
    (create_access_token cfgA 0 "client-1" none).2 = 3600 ∧
    verify_access_token cfgA 100 (create_access_token cfgA 0 "client-1" none).1
      = some { sub := "client-1", exp := 3600, iat := 0, scope := "full",
               iss := "mcp-sonarr" } ∧
    verify_access_token cfgA 4000 (create_access_token cfgA 0 "client-1" none).1
      = none := by
  have h := token_round_trip cfgA "client-1" 0 100 (by decide) 4000 (by decide)
  exact ⟨by decide, by decide, h.1, h.2.1, h.2.2⟩

/-! ### Claim theorems: the authentication middleware -/

/-- C5: on a non-exempt path with authentication enabled, the middleware
rejects a missing or non-Bearer `Authorization` header with 401
`unauthorized` and a `WWW-Authenticate` challenge; a bearer token matching
the configured static fallback token is accepted (before any JWT check) with
the synthetic auth context; otherwise a token verifying as a JWT proceeds
with the JWT claims attached; and a token matching neither is rejected with
401 `invalid_token`. -/
theorem middleware_auth_gate (cfg : OAuthConfig) (path : String) (now : Time)
    (hex : rstripSlashes path ∉ EXEMPT_PATHS) (hroot : rstripSlashes path ≠ "")
    (hauth : cfg.auth_enabled = true) :
    (OAuthMiddleware_dispatch cfg path AuthHeader.absent now
      = DispatchResult.reject 401 "unauthorized"
          "Missing or invalid Authorization header" "Bearer realm=\"mcp-sonarr\"") ∧
    (∀ s, OAuthMiddleware_dispatch cfg path (AuthHeader.nonBearer s) now
      = DispatchResult.reject 401 "unauthorized"
          "Missing or invalid Authorization header" "Bearer realm=\"mcp-sonarr\"") ∧
    (∀ tok, matchesSimpleToken cfg tok = true →
      OAuthMiddleware_dispatch cfg path (AuthHeader.bearer tok) now
        = DispatchResult.proceed (some AuthContext.simpleToken)) ∧
    (∀ tok claims, matchesSimpleToken cfg tok = false →
      verify_access_token cfg now tok = some claims →
      OAuthMiddleware_dispatch cfg path (AuthHeader.bearer tok) now
        = DispatchResult.proceed (some (AuthContext.jwt claims))) ∧
    (∀ tok, matchesSimpleToken cfg tok = false →
      verify_access_token cfg now tok = none →
      OAuthMiddleware_dispatch cfg path (AuthHeader.bearer tok) now
        = DispatchResult.reject 401 "invalid_token"
            "The access token is invalid or expired"
            "Bearer realm=\"mcp-sonarr\", error=\"invalid_token\"") := by
  have hne : ¬ (rstripSlashes path ∈ EXEMPT_PATHS ∨ rstripSlashes path = "") := by
    rintro (h | h)
    · exact hex h
    · exact hroot h
  refine ⟨?_, ?_, ?_, ?_, ?_⟩
  · simp [OAuthMiddleware_dispatch, hne, hauth]
  · intro s
    simp [OAuthMiddleware_dispatch, hne, hauth]
  · intro tok hm
    simp [OAuthMiddleware_dispatch, hne, hauth, hm]
  · intro tok claims hm hv
    simp [OAuthMiddleware_dispatch, hne, hauth, hm, hv]
  · intro tok hm hv
    simp [OAuthMiddleware_dispatch, hne, hauth, hm, hv]

theorem middleware_auth_gate_witness :
    (rstripSlashes "/mcp" ∉ EXEMPT_PATHS) ∧ (rstripSlashes "/mcp" ≠ "") ∧
    (cfgA.auth_enabled = true) ∧
    OAuthMiddleware_dispatch cfgA "/mcp" AuthHeader.absent 0
      = DispatchResult.reject 401 "unauthorized"
          "Missing or invalid Authorization header" "Bearer realm=\"mcp-sonarr\"" ∧
    OAuthMiddleware_dispatch cfgA "/mcp" (AuthHeader.bearer (TokenStr.plain "tok")) 0
      = DispatchResult.proceed (some AuthContext.simpleToken) ∧
    OAuthMiddleware_dispatch cfgA "/mcp" (AuthHeader.bearer (TokenStr.plain "bad")) 0
      = DispatchResult.reject 401 "invalid_token"
          "The access token is invalid or expired"
          "Bearer realm=\"mcp-sonarr\", error=\"invalid_token\"" := by
  have h := middleware_auth_gate cfgA "/mcp" 0 (by decide) (by decide) (by decide)
  exact ⟨by decide, by decide, by decide, h.1,
    h.2.2.1 (TokenStr.plain "tok") (by decide),
    h.2.2.2.2 (TokenStr.plain "bad") (by decide) (by decide)⟩

/-- Any request whose slash-stripped path is exempt (or empty) is forwarded
with no auth context, whatever the header and configuration. -/
theorem dispatch_exempt (cfg : OAuthConfig) (path : String) (hdr : AuthHeader)
    (now : Time)
    (h : rstripSlashes path ∈ EXEMPT_PATHS ∨ rstripSlashes path = "") :
    OAuthMiddleware_dispatch cfg path hdr now = DispatchResult.proceed none := by
  simp [OAuthMiddleware_dispatch, h]

/-- C9: the middleware compares the request path with trailing slashes
stripped, so the root path `/` (which strips to the empty string) and every
trailing-slash variant of an exempt path reach the handler with no
`Authorization` header required, even when authentication is configured. -/
theorem exempt_paths_trailing_slash (cfg : OAuthConfig) (hdr : AuthHeader)
    (now : Time) :
    OAuthMiddleware_dispatch cfg "/" hdr now = DispatchResult.proceed none ∧
    ∀ p, p ∈ EXEMPT_PATHS →
      OAuthMiddleware_dispatch cfg (p ++ "/") hdr now
        = DispatchResult.proceed none := by
  constructor
  · exact dispatch_exempt cfg "/" hdr now (Or.inr (by decide))
  · intro p hp
    apply dispatch_exempt
    left
    fin_cases hp <;> decide

theorem exempt_paths_trailing_slash_witness :
    OAuthMiddleware_dispatch cfgA "/" AuthHeader.absent 0
      = DispatchResult.proceed none ∧
    ("/health" ∈ EXEMPT_PATHS) ∧
    OAuthMiddleware_dispatch cfgA ("/health" ++ "/") AuthHeader.absent 0
      = DispatchResult.proceed none := by
  have h := exempt_paths_trailing_slash cfgA AuthHeader.absent 0
  exact ⟨h.1, by decide, h.2 "/health" (by decide)⟩

/-! ### Claim theorems: the token endpoint -/

theorem except_ok_bind {α β : Type} (a : α) (f : α → Except Unit β) :
    (Except.ok a : Except Unit α) >>= f = f a := rfl

theorem except_error_bind {α β : Type} (f : α → Except Unit β) :
    (Except.error () : Except Unit α) >>= f = Except.error () := rfl

theorem except_pure_eq {α : Type} (a : α) : (pure a : Except Unit α) = Except.ok a := rfl

/-- C6 counterexample: the claim says a POST with `grant_type
"authorization_code"` whose `client_secret` is absent gets a 401
`invalid_client`, but `verify_client_credentials` feeds the missing value to
`secrets.compare_digest`, which raises `TypeError`: the request ends in an
unhandled exception (server error), not a 401 JSON response. -/
theorem token_missing_secret_counterexample :
    oauth_token cfgA 0 (some "authorization_code") (some "c") (some "https://cb")
      (some "abc") none emptyStore = Except.error () := rfl

/-- C6 amended: with OAuth configured and grant type `authorization_code`,
the endpoint returns 401 `invalid_client` whenever `client_id` and
`client_secret` are both present in the form but do not both match the
configured values (constant-time comparison); when `client_id` is absent (or
it matches and `client_secret` is absent) `compare_digest` raises `TypeError`
instead, so no 401 is produced. -/
theorem token_invalid_client (cfg : OAuthConfig) (now : Time)
    (code ruri : Option String) (a b : String) (st : Store)
    (hen : cfg.oauth_enabled = true)
    (hmis : ¬ (cfg.client_id = some a ∧ cfg.client_secret = some b)) :
    oauth_token cfg now (some "authorization_code") code ruri (some a) (some b) st
      = Except.ok (TokenResponse.jsonError 401 "invalid_client"
          "Invalid client credentials", st) ∧
    ∀ cs, oauth_token cfg now (some "authorization_code") code ruri none cs st
      = Except.error () := by
  obtain ⟨ci, hci⟩ : ∃ ci, cfg.client_id = some ci := by
    cases hc : cfg.client_id with
    | none =>
      exfalso
      have h := hen
      simp [OAuthConfig.oauth_enabled, truthy, hc] at h
    | some x => exact ⟨x, rfl⟩
  obtain ⟨cs0, hcs0⟩ : ∃ c, cfg.client_secret = some c := by
    cases hc : cfg.client_secret with
    | none =>
      exfalso
      have h := hen
      simp [OAuthConfig.oauth_enabled, truthy, hc] at h
    | some x => exact ⟨x, rfl⟩
  constructor
  · by_cases ha : a = ci
    · have hb : ¬ b = cs0 := by
        intro hb
        exact hmis ⟨by rw [hci, ha], by rw [hcs0, hb]⟩
      subst ha
      simp [oauth_token, verify_client_credentials, compare_digest,
        except_ok_bind, except_error_bind, except_pure_eq, hen, hci, hcs0, hb]
    · simp [oauth_token, verify_client_credentials, compare_digest,
        except_ok_bind, except_error_bind, except_pure_eq, hen, hci, hcs0, ha]
  · intro cs
    simp [oauth_token, verify_client_credentials, compare_digest,
      except_ok_bind, except_error_bind, except_pure_eq, hen, hci]

theorem token_invalid_client_witness :
    (cfgA.oauth_enabled = true) ∧
    (¬ (cfgA.client_id = some "abc" ∧ cfgA.client_secret = some "wrong")) ∧
    oauth_token cfgA 0 (some "authorization_code") (some "c") (some "https://cb")
        (some "abc") (some "wrong") emptyStore
      = Except.ok (TokenResponse.jsonError 401 "invalid_client"
          "Invalid client credentials", emptyStore) ∧
    oauth_token cfgA 0 (some "authorization_code") (some "c") (some "https://cb")
        none none emptyStore = Except.error () := by
  have h := token_invalid_client cfgA 0 (some "c") (some "https://cb")
    "abc" "wrong" emptyStore (by decide) (by decide)
  exact ⟨by decide, by decide, h.1, h.2 none⟩

/-! ### Claim theorems: the authorization endpoint -/

/-- C7 counterexample: the claim says `response_type` is required and any
request without it gets 400 `unsupported_response_type`, but the code reads
it with default `"code"`: a GET with no `response_type` (and a matching
`client_id`) renders the authorization form. -/
theorem authorize_get_default_response_type_counterexample :
    oauth_authorize_get cfgA (some "abc") (some "https://cb") (some "xyz") none
      = AuthorizeResponse.htmlForm 200 "abc" "https://cb" "xyz" "code" "" := rfl

/-- C7 amended: the query parameters are optional — `client_id`,
`redirect_uri` and `state` default to `""` and `response_type` defaults to
`"code"`.  With OAuth configured: 400 `invalid_client` when the (defaulted)
`client_id` differs from the configured one; 400 `unsupported_response_type`
only when a supplied `response_type` differs from `"code"`; otherwise —
including when `response_type` is missing — the form is rendered. -/
theorem authorize_get_validation (cfg : OAuthConfig)
    (qc qr qs qt : Option String) (hen : cfg.oauth_enabled = true) :
    (cfg.client_id ≠ some (qc.getD "") →
      oauth_authorize_get cfg qc qr qs qt
        = AuthorizeResponse.jsonError 400 "invalid_client" "Unknown client_id") ∧
    (cfg.client_id = some (qc.getD "") → qt.getD "code" ≠ "code" →
      oauth_authorize_get cfg qc qr qs qt
        = AuthorizeResponse.jsonError 400 "unsupported_response_type"
            "Only 'code' response type is supported") ∧
    (cfg.client_id = some (qc.getD "") → qt.getD "code" = "code" →
      oauth_authorize_get cfg qc qr qs qt
        = AuthorizeResponse.htmlForm 200 (qc.getD "") (qr.getD "") (qs.getD "")
            "code" "") := by
  refine ⟨?_, ?_, ?_⟩
  · intro h
    have h2 : some (qc.getD "") ≠ cfg.client_id := Ne.symm h
    simp [oauth_authorize_get, hen, h2]
  · intro h hrt
    simp [oauth_authorize_get, hen, h, hrt]
  · intro h hrt
    simp [oauth_authorize_get, hen, h, hrt]

theorem authorize_get_validation_witness :
    (cfgA.oauth_enabled = true) ∧
    oauth_authorize_get cfgA (some "evil") (some "https://cb") (some "xyz")
        (some "code")
      = AuthorizeResponse.jsonError 400 "invalid_client" "Unknown client_id" ∧
    oauth_authorize_get cfgA (some "abc") (some "https://cb") (some "xyz")
        (some "token")
      = AuthorizeResponse.jsonError 400 "unsupported_response_type"
          "Only 'code' response type is supported" ∧
    oauth_authorize_get cfgA (some "abc") (some "https://cb") (some "xyz") none
      = AuthorizeResponse.htmlForm 200 "abc" "https://cb" "xyz" "code" "" := by
  have h1 := authorize_get_validation cfgA (some "evil") (some "https://cb")
    (some "xyz") (some "code") (by decide)
  have h2 := authorize_get_validation cfgA (some "abc") (some "https://cb")
    (some "xyz") (some "token") (by decide)
  have h3 := authorize_get_validation cfgA (some "abc") (some "https://cb")
    (some "xyz") none (by decide)
  exact ⟨by decide, h1.1 (by decide), h2.2.1 (by decide) (by decide),
    h3.2.2 (by decide) (by decide)⟩

theorem urlencode_code (c : String) :
    urlencode [("code", c)] = "code=" ++ quote_plus c := rfl

theorem urlencode_code_state (c s : String) :
    urlencode [("code", c), ("state", s)]
      = "code=" ++ quote_plus c ++ "&" ++ ("state=" ++ quote_plus s) := rfl

/-- C10: a POST to the authorization endpoint with the configured `client_id`
and the correct password answers 302, and the `Location` is the submitted
`redirect_uri` — taken verbatim, with no validation against any registered
value — followed by `?`, the URL-encoded `code` parameter, and the
URL-encoded `state` parameter when `state` is non-empty. -/
theorem authorize_post_redirect (cfg : OAuthConfig) (now : Time)
    (newCode ruri state password : String) (st : Store) (cid : String)
    (hcid : cfg.client_id = some cid) (hen : cfg.oauth_enabled = true)
    (hpw : verify_password cfg password = true) :
    (oauth_authorize_post cfg now newCode (some cid) (some ruri) (some state)
        (some password) st).1
      = AuthorizeResponse.redirect 302
          (ruri ++ "?" ++
            (if state = "" then "code=" ++ quote_plus newCode
             else "code=" ++ quote_plus newCode ++ "&" ++
               ("state=" ++ quote_plus state))) := by
  by_cases hs : state = ""
  · simp [oauth_authorize_post, hen, hcid, hpw, hs, urlencode_code]
  · simp [oauth_authorize_post, hen, hcid, hpw, hs, urlencode_code,
      urlencode_code_state]

theorem authorize_post_redirect_witness :
    (cfgA.client_id = some "abc") ∧ (cfgA.oauth_enabled = true) ∧
    (verify_password cfgA "hunter2" = true) ∧
    (oauth_authorize_post cfgA 0 "XyZ_123" (some "abc") (some "https://cb")
        (some "xyz") (some "hunter2") emptyStore).1
      = AuthorizeResponse.redirect 302
          ("https://cb" ++ "?" ++
            (if ("xyz" : String) = "" then "code=" ++ quote_plus "XyZ_123"
             else "code=" ++ quote_plus "XyZ_123" ++ "&" ++
               ("state=" ++ quote_plus "xyz"))) := by
  have h := authorize_post_redirect cfgA 0 "XyZ_123" "https://cb" "xyz"
    "hunter2" emptyStore "abc" (by decide) (by decide) (by decide)
  exact ⟨by decide, by decide, by decide, h⟩
